import Mathlib

/-!
Shallow embedding of the `humantalk` crate (src/lib.rs).

The crate is a small logging helper: a `Severity` enum, a `Color` type
(re-exported from the `console` crate, of which only the variants used by
`to_color256` matter here), a `Config` holding a severity→color map and an
optional bug-report descriptor, a `write` routine with per-severity
shorthands, a `machine_info` diagnostic string, and a `fatal_error` handler
that prints a report, writes it to `crash_report.log`, and terminates the
process.

Effectful code is embedded by explicit state/environment passing: `write`
returns the (optional) styled line it would print, `machine_info` takes the
host environment (arch/os/family strings and the result of
`rustc_version::version_meta()`) as an explicit argument and returns either
the diagnostic string or the printed message plus exit code of the
early-termination branch, and `fatal_error` takes an environment describing
the outcome of the file operations and returns a trace: the lines printed to
stdout, the final state of `crash_report.log`, and the process exit code.
-/

namespace Humantalk

/-- version of humantalk (the `VERSION` constant in src/lib.rs). -/
def VERSION : String := "0.1.1"

/-- The `Severity` enum: severity of logging. -/
inductive Severity where
  | Error
  | Warning
  | Info
  | Debug
deriving DecidableEq, Repr

/-- The `Display` impl for `Severity`: lowercase name of the variant. -/
def Severity.label : Severity → String
  | .Error => "error"
  | .Warning => "warning"
  | .Info => "info"
  | .Debug => "debug"

/-- The `console::Color` type, restricted to the variants handled by
`to_color256`: eight named colors and an explicit 256-palette code.
The Rust payload is a `u8`; it is embedded as a `Nat` (the source never
computes with it, so no wraparound arises). -/
inductive Color where
  | Black
  | Red
  | Green
  | Yellow
  | Blue
  | Magenta
  | Cyan
  | White
  | Color256 (code : Nat)
deriving DecidableEq, Repr

/-- `ColorToColor256::to_color256`: the color-to-256-palette-index
conversion from src/lib.rs. -/
def Color.to_color256 : Color → Nat
  | .Black => 0
  | .Red => 1
  | .Green => 2
  | .Yellow => 3
  | .Blue => 4
  | .Magenta => 5
  | .Cyan => 6
  | .White => 7
  | .Color256 code => code

/-- The `HowToBugReport` struct: message shown on crash and the url users
are pointed to. -/
structure HowToBugReport where
  message : String
  url : String
deriving Repr, DecidableEq

/-- `HowToBugReport::new`. -/
def HowToBugReport.new (message : String) (url : String) : HowToBugReport :=
  ⟨message, url⟩

/-- The `Config` struct. The Rust `HashMap<Severity, Color>` is embedded
extensionally as a partial function `Severity → Option Color` (the key type
has four values; a hash map over it is, observationally, exactly such a
partial function). -/
structure Config where
  colors : Severity → Option Color
  bug_report : Option HowToBugReport

/-- `HashMap::remove` on the embedded map (the returned old value is
discarded by the source, so it is not modelled). -/
def mapRemove (m : Severity → Option Color) (k : Severity) :
    Severity → Option Color :=
  fun s => if s = k then none else m s

/-- `HashMap::insert` on the embedded map. -/
def mapInsert (m : Severity → Option Color) (k : Severity) (v : Color) :
    Severity → Option Color :=
  fun s => if s = k then some v else m s

/-- `Config::default`: preset colors (Error→Red, Warning→Yellow,
Info→Green, Debug→Blue) and no bug report. -/
def Config.default : Config :=
  let colors := fun _ => (none : Option Color)
  let colors := mapInsert colors Severity.Error Color.Red
  let colors := mapInsert colors Severity.Warning Color.Yellow
  let colors := mapInsert colors Severity.Info Color.Green
  let colors := mapInsert colors Severity.Debug Color.Blue
  { colors := colors, bug_report := none }

/-- `Config::custom`. -/
def Config.custom (colors : Severity → Option Color)
    (bug_report : HowToBugReport) : Config :=
  { colors := colors, bug_report := some bug_report }

/-- `Config::get_color`: the configured color for a severity, else White. -/
def Config.get_color (cfg : Config) (severity : Severity) : Color :=
  match cfg.colors severity with
  | some color => color
  | none => Color.White

/-- `Config::set_color`: remove any existing entry, then insert. -/
def Config.set_color (cfg : Config) (severity : Severity) (color : Color) :
    Config :=
  { cfg with colors := mapInsert (mapRemove cfg.colors severity) severity color }

/-- One styled line as produced by `style(text).color256(c)`: the plain
text together with the 256-palette index it is rendered in. -/
structure OutputLine where
  text : String
  color256 : Nat
deriving Repr, DecidableEq

/-- `println!` emits its argument followed by a newline on stdout. -/
def printlnOut (s : String) : String := s ++ "\n"

/-- `Config::write`. `debug_assertions` is the build-time toggle: the
`#[cfg(not(debug_assertions))]` early return fires exactly when it is
`false` (a `--release` build) and the severity is `Debug`. Returns the
styled line printed, or `none` when suppressed. -/
def Config.write (cfg : Config) (debug_assertions : Bool)
    (severity : Severity) (message : String) : Option OutputLine :=
  if debug_assertions = false ∧ severity = Severity.Debug then
    none
  else
    let color := cfg.get_color severity
    some { text := "[" ++ severity.label ++ "] " ++ message,
           color256 := color.to_color256 }

/-- `Config::debug`: shorthand for `write(Severity::Debug, ...)`. -/
def Config.debug (cfg : Config) (debug_assertions : Bool)
    (message : String) : Option OutputLine :=
  cfg.write debug_assertions Severity.Debug message

/-- `Config::info`: shorthand for `write(Severity::Info, ...)`. -/
def Config.info (cfg : Config) (debug_assertions : Bool)
    (message : String) : Option OutputLine :=
  cfg.write debug_assertions Severity.Info message

/-- `Config::error`: shorthand for `write(Severity::Error, ...)`. -/
def Config.error (cfg : Config) (debug_assertions : Bool)
    (message : String) : Option OutputLine :=
  cfg.write debug_assertions Severity.Error message

/-- `Config::warning`: shorthand for `write(Severity::Warning, ...)`. -/
def Config.warning (cfg : Config) (debug_assertions : Bool)
    (message : String) : Option OutputLine :=
  cfg.write debug_assertions Severity.Warning message

/-- The fields of `rustc_version::VersionMeta` that `machine_info` reads:
`short_version_string` and the optional `llvm_version` (major, minor). -/
structure VersionMeta where
  short_version_string : String
  llvm_major : Nat
  llvm_minor : Nat
  llvm_present : Bool
deriving Repr, DecidableEq

/-- The host environment `machine_info` observes: the `std::env::consts`
strings and the result of `rustc_version::version_meta()` (`Except` carries
the display of the error `e` in the failure case). Fixed for the duration
of a process run. -/
structure MachineEnv where
  arch : String
  os : String
  family : String
  rustc : Except String VersionMeta

/-- Whether `version_meta()` succeeds in this environment. -/
def MachineEnv.rustcOk (env : MachineEnv) : Bool :=
  match env.rustc with
  | .ok _ => true
  | .error _ => false

/-- Outcome of `Config::machine_info`: either the diagnostic string, or the
early process termination of the `unwrap_or_else` branch (the message it
prints, and the exit code). -/
inductive MachineResult where
  | ok (s : String)
  | exited (printed : String) (code : Int)
deriving Repr, DecidableEq

/-- `Config::machine_info`. On `version_meta()` failure the source prints
an error line and calls `std::process::exit(-1)`; otherwise it formats the
diagnostic string. -/
def Config.machine_info (_cfg : Config) (env : MachineEnv) : MachineResult :=
  let arch := env.arch
  let os := env.os
  let family := env.family
  match env.rustc with
  | .error e =>
      .exited ("humantalk has failed (with message " ++ e ++
        "). Please submit an issue at github.com/werdl/humantalk") (-1)
  | .ok rustc_info =>
      let llvm_version_string :=
        if rustc_info.llvm_present then
          toString rustc_info.llvm_major ++ "." ++ toString rustc_info.llvm_minor
        else
          "unknown"
      .ok (family ++ "-" ++ os ++ "-" ++ arch ++ " - Rust version " ++
        rustc_info.short_version_string ++ ", running on LLVM " ++
        llvm_version_string ++
        ". information stuff generated by humantalk " ++ VERSION)

/-- The report body composed by `Config::fatal_error` (the string written
to `crash_report.log`; the printed copy appends a blank line). The
bug-report descriptor is the config's if present, else the built-in
default. -/
def fatalReportBody (cfg : Config) (message : String) : String :=
  let bug_report :=
    match cfg.bug_report with
    | some x => x
    | none =>
        { message := "Oh no! The program has crashed",
          url := "the appropriate place" : HowToBugReport }
  "[FATAL] " ++ message ++ "\n" ++ bug_report.message ++
    ". Please submit a report to " ++ bug_report.url ++
    ", along with a copy of this error message, which can also be found in crash_report.log as plaintext."

/-- Environment of one `fatal_error` invocation: the machine environment,
the outcomes of `File::create` and of the two `write` calls, and the prior
contents of `crash_report.log` (`none` when absent). -/
structure FatalEnv where
  machineEnv : MachineEnv
  createOk : Bool
  firstWriteOk : Bool
  secondWriteOk : Bool
  priorFile : Option String

/-- Trace of one `fatal_error` invocation: the arguments of the `println!`
calls in order, the final contents of `crash_report.log` (`none` when
absent), the `std::process::exit` code, and the configuration as left
behind (the method takes `&self`). -/
structure FatalResult where
  stdout : List String
  fileState : Option String
  exitCode : Int
  configAfter : Config

/-- `Config::fatal_error`. Prints the report body (red) and the platform
info block (cyan), then creates `crash_report.log` (truncating any prior
file) and writes the body and the platform block to it; every branch ends
in `std::process::exit`: `-1` when `machine_info` fails, when file creation
fails, or when either write fails, and `3` on success. -/
def Config.fatal_error (cfg : Config) (env : FatalEnv) (message : String) :
    FatalResult :=
  let body := fatalReportBody cfg message
  let printedBody := body ++ "\n\n"
  match cfg.machine_info env.machineEnv with
  | .exited printed code =>
      { stdout := [printedBody, printed],
        fileState := env.priorFile,
        exitCode := code,
        configAfter := cfg }
  | .ok info =>
      let platformBlock := "[PLATFORM INFO]\n" ++ info
      if env.createOk = false then
        { stdout := [printedBody, platformBlock,
            "Failed to create debug file - just copy the information displayed above."],
          fileState := env.priorFile,
          exitCode := -1,
          configAfter := cfg }
      else if env.firstWriteOk = false then
        { stdout := [printedBody, platformBlock,
            "Failed to write to debug file - just copy the information displayed above."],
          fileState := some "",
          exitCode := -1,
          configAfter := cfg }
      else if env.secondWriteOk = false then
        { stdout := [printedBody, platformBlock,
            "Failed to write to debug file - just copy the information displayed above."],
          fileState := some body,
          exitCode := -1,
          configAfter := cfg }
      else
        { stdout := [printedBody, platformBlock],
          fileState := some (body ++ "\n[PLATFORM INFO]\n" ++ info),
          exitCode := 3,
          configAfter := cfg }

/-- One call of the public `Config` API surface. -/
inductive ApiCall where
  | writeCall (debug_assertions : Bool) (severity : Severity) (message : String)
  | debugCall (debug_assertions : Bool) (message : String)
  | infoCall (debug_assertions : Bool) (message : String)
  | warningCall (debug_assertions : Bool) (message : String)
  | errorCall (debug_assertions : Bool) (message : String)
  | getColorCall (severity : Severity)
  | setColorCall (severity : Severity) (color : Color)
  | machineInfoCall (env : MachineEnv)
  | fatalCall (env : FatalEnv) (message : String)

/-- The configuration-state transition of one API call. `set_color` takes
`&mut self` and is embedded by `Config.set_color`; `fatal_error` threads
its configuration through `FatalResult.configAfter`; every other method
takes `&self` with no interior mutability, so its state transition is the
identity. -/
def apiStep (cfg : Config) : ApiCall → Config
  | .setColorCall severity color => cfg.set_color severity color
  | .fatalCall env message => (cfg.fatal_error env message).configAfter
  | _ => cfg

/-- A machine environment where `version_meta()` succeeds. -/
def okMachineEnv : MachineEnv :=
  { arch := "x86_64", os := "linux", family := "unix",
    rustc := .ok { short_version_string := "rustc 1.70.0",
                   llvm_major := 16, llvm_minor := 0, llvm_present := true } }

/-- A machine environment where `version_meta()` fails. -/
def failMachineEnv : MachineEnv :=
  { arch := "x86_64", os := "linux", family := "unix",
    rustc := .error "could not execute rustc" }

/-- A fatal-error environment where every file operation succeeds. -/
def successEnv : FatalEnv :=
  { machineEnv := okMachineEnv, createOk := true,
    firstWriteOk := true, secondWriteOk := true, priorFile := none }

/-- A fatal-error environment where `crash_report.log` already holds an
old report, `File::create` succeeds (truncating it), and the first write
then fails. -/
def writeFailEnv : FatalEnv :=
  { machineEnv := okMachineEnv, createOk := true,
    firstWriteOk := false, secondWriteOk := true,
    priorFile := some "old report" }

/-- A fatal-error environment where `File::create` fails with a prior
report on disk. -/
def createFailEnv : FatalEnv :=
  { machineEnv := okMachineEnv, createOk := false,
    firstWriteOk := true, secondWriteOk := true,
    priorFile := some "old report" }

/-- A concrete bug-report descriptor. -/
def witnessReport : HowToBugReport :=
  HowToBugReport.new "contact us" "http://example.test"

/-- A concrete configuration carrying `witnessReport`. -/
def witnessConfig : Config :=
  Config.custom Config.default.colors witnessReport

/-- C1: for every configuration and message, `fatal_error` composes its
report body as exactly `"[FATAL] " ++ message ++ "\n" ++ bugReportMessage ++
". Please submit a report to " ++ url ++ ", along with a copy of this error
message, which can also be found in crash_report.log as plaintext."`, where
the descriptor is the configuration's when present and otherwise the
built-in default with message "Oh no! The program has crashed" and a
generic placeholder url. -/
theorem fatal_report_body_spec (cfg : Config) (message : String) :
    (∀ br, cfg.bug_report = some br →
      fatalReportBody cfg message =
        "[FATAL] " ++ message ++ "\n" ++ br.message ++
          ". Please submit a report to " ++ br.url ++
          ", along with a copy of this error message, which can also be found in crash_report.log as plaintext.")
    ∧ (cfg.bug_report = none →
      fatalReportBody cfg message =
        "[FATAL] " ++ message ++ "\n" ++ "Oh no! The program has crashed" ++
          ". Please submit a report to " ++ "the appropriate place" ++
          ", along with a copy of this error message, which can also be found in crash_report.log as plaintext.") := by
  constructor
  · intro br h
    simp [fatalReportBody, h]
  · intro h
    simp [fatalReportBody, h]

/-- Witness for C1 at a concrete configuration and message. -/
theorem fatal_report_body_spec_witness :
    witnessConfig.bug_report = some witnessReport ∧
    fatalReportBody witnessConfig "boom" =
      "[FATAL] " ++ "boom" ++ "\n" ++ "contact us" ++
        ". Please submit a report to " ++ "http://example.test" ++
        ", along with a copy of this error message, which can also be found in crash_report.log as plaintext." :=
  ⟨rfl, (fatal_report_body_spec witnessConfig "boom").1 witnessReport rfl⟩

/-- C4: `get_color` returns the configured color for a severity when one
is present and White otherwise; with an empty color map it returns White
for every severity. It is a pure total function. -/
theorem get_color_spec (cfg : Config) (severity : Severity) :
    (∀ c, cfg.colors severity = some c → cfg.get_color severity = c)
    ∧ (cfg.colors severity = none → cfg.get_color severity = Color.White)
    ∧ (∀ br s, (Config.mk (fun _ => none) br).get_color s = Color.White) := by
  refine ⟨?_, ?_, ?_⟩
  · intro c h
    simp [Config.get_color, h]
  · intro h
    simp [Config.get_color, h]
  · intro br s
    simp [Config.get_color]

/-- Witness for C4: the default configuration maps Error to Red. -/
theorem get_color_spec_witness :
    Config.default.colors Severity.Error = some Color.Red ∧
    Config.default.get_color Severity.Error = Color.Red :=
  ⟨rfl, (get_color_spec Config.default Severity.Error).1 Color.Red rfl⟩

/-- C5: the color-to-256-palette-index conversion is a pure total
function with Black↦0, Red↦1, Green↦2, Yellow↦3, Blue↦4, Magenta↦5,
Cyan↦6, White↦7, and every numeric color code N in [0,255] mapped to N. -/
theorem to_color256_spec :
    Color.to_color256 Color.Black = 0 ∧ Color.to_color256 Color.Red = 1 ∧
    Color.to_color256 Color.Green = 2 ∧ Color.to_color256 Color.Yellow = 3 ∧
    Color.to_color256 Color.Blue = 4 ∧ Color.to_color256 Color.Magenta = 5 ∧
    Color.to_color256 Color.Cyan = 6 ∧ Color.to_color256 Color.White = 7 ∧
    ∀ n : Nat, n ≤ 255 → Color.to_color256 (Color.Color256 n) = n := by
  refine ⟨rfl, rfl, rfl, rfl, rfl, rfl, rfl, rfl, ?_⟩
  intro n _
  rfl

/-- Witness for C5 at the numeric code 42. -/
theorem to_color256_spec_witness :
    (42 : Nat) ≤ 255 ∧ Color.to_color256 (Color.Color256 42) = 42 :=
  ⟨by decide, to_color256_spec.2.2.2.2.2.2.2.2 42 (by decide)⟩

/-- C6: every line `write` emits is exactly
`"[" ++ severityLabel ++ "] " ++ message`, newline-terminated on stdout,
where severityLabel is the lowercase name of the severity. -/
theorem write_format_spec (cfg : Config) (debug_assertions : Bool)
    (severity : Severity) (message : String) :
    (∀ line, cfg.write debug_assertions severity message = some line →
      printlnOut line.text = "[" ++ severity.label ++ "] " ++ message ++ "\n")
    ∧ Severity.label Severity.Error = "error"
    ∧ Severity.label Severity.Warning = "warning"
    ∧ Severity.label Severity.Info = "info"
    ∧ Severity.label Severity.Debug = "debug" := by
  refine ⟨?_, rfl, rfl, rfl, rfl⟩
  intro line h
  unfold Config.write at h
  split at h
  · exact absurd h (by simp)
  · simp only [Option.some.injEq] at h
    subst h
    simp [printlnOut]

/-- Witness for C6: `write(Info, "hello")` emits exactly
`"[info] hello"` newline-terminated. -/
theorem write_format_spec_witness :
    printlnOut (OutputLine.text { text := "[info] hello", color256 := 2 }) =
      "[" ++ Severity.label Severity.Info ++ "] " ++ "hello" ++ "\n" :=
  (write_format_spec Config.default true Severity.Info "hello").1
    { text := "[info] hello", color256 := 2 } rfl

/-- C7: in a release build (`debug_assertions = false`) `write` with
severity Debug is a no-op; in a non-suppressing build `write(Debug, x)`
produces the line `"[debug] " ++ x`; severities other than Debug are
emitted in both build modes. -/
theorem write_release_debug_spec (cfg : Config) (message : String) :
    cfg.write false Severity.Debug message = none
    ∧ (cfg.write true Severity.Debug message).map OutputLine.text =
        some ("[debug] " ++ message)
    ∧ (∀ (debug_assertions : Bool) (severity : Severity),
        severity ≠ Severity.Debug →
        (cfg.write debug_assertions severity message).isSome = true) := by
  refine ⟨?_, ?_, ?_⟩
  · simp [Config.write]
  · simp [Config.write, Severity.label]
  · intro b severity h
    simp [Config.write, h]

/-- Witness for C7: Debug suppressed in release, emitted otherwise, and
Info emitted even in release. -/
theorem write_release_debug_spec_witness :
    Config.default.write false Severity.Debug "x" = none
    ∧ (Config.default.write true Severity.Debug "x").map OutputLine.text =
        some ("[debug] " ++ "x")
    ∧ (Config.default.write false Severity.Info "x").isSome = true := by
  have h := write_release_debug_spec Config.default "x"
  exact ⟨h.1, h.2.1, h.2.2 false Severity.Info (by decide)⟩

/-- C8: `set_color(s, c)` followed by `get_color(s)` returns exactly `c`,
and the mapping of every severity other than `s` is unchanged. -/
theorem set_get_color_roundtrip (cfg : Config) (severity : Severity)
    (color : Color) :
    (cfg.set_color severity color).get_color severity = color
    ∧ ∀ s, s ≠ severity →
        (cfg.set_color severity color).colors s = cfg.colors s := by
  constructor
  · simp [Config.set_color, Config.get_color, mapInsert]
  · intro s h
    simp [Config.set_color, mapInsert, mapRemove, h]

/-- Witness for C8 at a concrete configuration: set Info to Magenta,
get it back, and Error keeps its mapping. -/
theorem set_get_color_roundtrip_witness :
    (Config.default.set_color Severity.Info Color.Magenta).get_color
        Severity.Info = Color.Magenta
    ∧ (Config.default.set_color Severity.Info Color.Magenta).colors
        Severity.Error = Config.default.colors Severity.Error := by
  have h := set_get_color_roundtrip Config.default Severity.Info Color.Magenta
  exact ⟨h.1, h.2 Severity.Error (by decide)⟩

/-- C2: `fatal_error` never returns — every code path ends with a process
exit code, which is 3 exactly when the crash report was produced in full
(version_meta succeeded, the file was created and both writes succeeded)
and the distinct nonzero code -1 on every failure path. -/
theorem fatal_error_always_exits (cfg : Config) (env : FatalEnv)
    (message : String) :
    ((cfg.fatal_error env message).exitCode = 3 ∨
      (cfg.fatal_error env message).exitCode = -1)
    ∧ ((cfg.fatal_error env message).exitCode = 3 ↔
        env.machineEnv.rustcOk = true ∧ env.createOk = true ∧
        env.firstWriteOk = true ∧ env.secondWriteOk = true) := by
  rcases env with ⟨⟨arch, os, family, rustc⟩, createOk, w1, w2, prior⟩
  cases rustc <;> cases createOk <;> cases w1 <;> cases w2 <;>
    simp [Config.fatal_error, Config.machine_info, MachineEnv.rustcOk]

/-- Witness for C2: on the all-success environment the exit code is 3. -/
theorem fatal_error_always_exits_witness :
    (Config.default.fatal_error successEnv "boom").exitCode = 3 :=
  (fatal_error_always_exits Config.default successEnv "boom").2.mpr
    ⟨rfl, rfl, rfl, rfl⟩

/-- C3 counterexample: with a prior `crash_report.log` on disk,
`File::create` succeeding (truncating the file) and the first write then
failing, `fatal_error` exits with -1 but leaves a truncated (empty)
`crash_report.log` — neither absent nor the complete prior version, so
the claim that no partial file is left behind is false. -/
theorem fatal_error_partial_file_counterexample :
    writeFailEnv.firstWriteOk = false
    ∧ (Config.default.fatal_error writeFailEnv "boom").exitCode = -1
    ∧ (Config.default.fatal_error writeFailEnv "boom").fileState = some ""
    ∧ ¬((Config.default.fatal_error writeFailEnv "boom").fileState = none ∨
        (Config.default.fatal_error writeFailEnv "boom").fileState =
          writeFailEnv.priorFile) := by
  refine ⟨rfl, rfl, rfl, ?_⟩
  rw [show (Config.default.fatal_error writeFailEnv "boom").fileState =
      some "" from rfl]
  simp [writeFailEnv]

/-- C3 amended: the on-screen output always begins with the report body
containing the fatal message, and every file-operation failure exits with
a code distinct from 3. When file creation fails, `crash_report.log` is
untouched (absent or the complete prior version); but when a write fails
after successful creation, a truncated file (empty, or holding only the
report body without the platform block) is left behind. -/
theorem fatal_error_file_failure_amended (cfg : Config) (env : FatalEnv)
    (message : String) :
    (cfg.fatal_error env message).stdout.head? =
        some (fatalReportBody cfg message ++ "\n\n")
    ∧ (env.createOk = false →
        (cfg.fatal_error env message).exitCode ≠ 3 ∧
        (cfg.fatal_error env message).fileState = env.priorFile)
    ∧ (env.machineEnv.rustcOk = true → env.createOk = true →
        env.firstWriteOk = false →
        (cfg.fatal_error env message).exitCode = -1 ∧
        (cfg.fatal_error env message).fileState = some "")
    ∧ (env.machineEnv.rustcOk = true → env.createOk = true →
        env.firstWriteOk = true → env.secondWriteOk = false →
        (cfg.fatal_error env message).exitCode = -1 ∧
        (cfg.fatal_error env message).fileState =
          some (fatalReportBody cfg message)) := by
  rcases env with ⟨⟨arch, os, family, rustc⟩, createOk, w1, w2, prior⟩
  cases rustc <;> cases createOk <;> cases w1 <;> cases w2 <;>
    simp [Config.fatal_error, Config.machine_info, MachineEnv.rustcOk]

/-- Witness for the amended C3: creation failure keeps the prior file and
exits with a code distinct from 3, while the fatal message is shown. -/
theorem fatal_error_file_failure_amended_witness :
    (Config.default.fatal_error createFailEnv "boom").stdout.head? =
        some (fatalReportBody Config.default "boom" ++ "\n\n")
    ∧ (Config.default.fatal_error createFailEnv "boom").exitCode ≠ 3
    ∧ (Config.default.fatal_error createFailEnv "boom").fileState =
        some "old report" := by
  have h := fatal_error_file_failure_amended Config.default createFailEnv "boom"
  exact ⟨h.1, (h.2.1 rfl).1, (h.2.1 rfl).2⟩

/-- C9: `machine_info` depends only on the host environment, so it is
deterministic across repeated calls within one process run; on success its
string is non-empty; if toolchain version information cannot be determined
it prints an error line and exits with the distinct nonzero status -1. -/
theorem machine_info_spec (cfg cfg2 : Config) (env : MachineEnv) :
    (∀ s, cfg.machine_info env = .ok s → 0 < s.length)
    ∧ cfg.machine_info env = cfg2.machine_info env
    ∧ (∀ e, env.rustc = .error e →
        cfg.machine_info env =
          .exited ("humantalk has failed (with message " ++ e ++
            "). Please submit an issue at github.com/werdl/humantalk")
            (-1)) := by
  rcases env with ⟨arch, os, family, rustc⟩
  refine ⟨?_, rfl, ?_⟩
  · intro s h
    cases rustc with
    | error e => simp [Config.machine_info] at h
    | ok m =>
        simp only [Config.machine_info, MachineResult.ok.injEq] at h
        subst h
        have h16 : (" - Rust version " : String).length = 16 := by decide
        simp only [String.length_append, h16]
        omega
  · intro e h
    subst h
    simp [Config.machine_info]

/-- Witness for C9: the failing environment yields the error print and
exit code -1. -/
theorem machine_info_spec_witness :
    Config.default.machine_info failMachineEnv =
      .exited ("humantalk has failed (with message " ++
        "could not execute rustc" ++
        "). Please submit an issue at github.com/werdl/humantalk") (-1) :=
  (machine_info_spec Config.default Config.default failMachineEnv).2.2
    "could not execute rustc" rfl

/-- C10: every public API call other than `set_color` leaves the
configuration (color map and bug-report descriptor) unchanged — in
particular `fatal_error`'s report-composition path on every branch — and
the per-severity shorthands are exactly `write` at the fixed severity. -/
theorem api_frame_spec (cfg : Config) (b : Bool) (msg : String)
    (fenv : FatalEnv) :
    (cfg.fatal_error fenv msg).configAfter = cfg
    ∧ cfg.debug b msg = cfg.write b Severity.Debug msg
    ∧ cfg.info b msg = cfg.write b Severity.Info msg
    ∧ cfg.warning b msg = cfg.write b Severity.Warning msg
    ∧ cfg.error b msg = cfg.write b Severity.Error msg
    ∧ (∀ call : ApiCall, (∀ severity color,
        call ≠ ApiCall.setColorCall severity color) →
        apiStep cfg call = cfg) := by
  refine ⟨?_, rfl, rfl, rfl, rfl, ?_⟩
  · rcases fenv with ⟨⟨arch, os, family, rustc⟩, createOk, w1, w2, prior⟩
    cases rustc <;> cases createOk <;> cases w1 <;> cases w2 <;>
      simp [Config.fatal_error, Config.machine_info]
  · intro call h
    cases call with
    | setColorCall severity color => exact absurd rfl (h severity color)
    | fatalCall env message =>
        rcases env with ⟨⟨arch, os, family, rustc⟩, createOk, w1, w2, prior⟩
        cases rustc <;> cases createOk <;> cases w1 <;> cases w2 <;>
          simp [apiStep, Config.fatal_error, Config.machine_info]
    | writeCall b severity message => rfl
    | debugCall b message => rfl
    | infoCall b message => rfl
    | warningCall b message => rfl
    | errorCall b message => rfl
    | getColorCall severity => rfl
    | machineInfoCall env => rfl

/-- Witness for C10: a `write` call leaves the default configuration
unchanged. -/
theorem api_frame_spec_witness :
    apiStep Config.default (ApiCall.writeCall true Severity.Info "boom") =
      Config.default :=
  (api_frame_spec Config.default true "boom" successEnv).2.2.2.2.2
    (ApiCall.writeCall true Severity.Info "boom") (by intro s c; simp)

end Humantalk
